import Mathlib

/-!
Verification of the otrade trading frontend and its engine specification.

The definitions below are shallow embeddings of the JavaScript/Svelte source:

* `checkMarketHours` — src/frontend/src/lib/stores/timeframe.js, lines 23-34
* `timeframeUpdateFrequency` — src/frontend/src/lib/stores/timeframe.js, line 76
* `adjustPollingStrategy` — src/frontend/src/routes/live-trading-v2/+page.svelte, lines 177-195
* `wsOnClose` — src/unnamed/part_000 (websocket store), lines 69-82
* `ltReconnectDelay` — src/frontend/src/routes/live-trading-v2/+page.svelte, lines 1043-1052
* `loadAlertsRetained` — both pages' `loadAlerts`: `(data.alerts || []).slice(0, 100)`
* `storeTickPrice` / `handlerTickPrice` — the two consumers of `market_data` ticks
* `loadTradesPerf` — src/frontend/src/routes/paper-trading/+page.svelte, lines 131-158

The backend engine (run/pause/stop state machine, suspension semantics,
square-off on stop, start-mode validation) is not part of the repository
snapshot; those operations are modelled from the specification and are
marked as such in their doc comments.
-/

namespace OTrade

/-! ## Clock / market-hours determination (timeframe.js) -/

/-- Embeds `checkMarketHours` of timeframe.js: the current minute-of-day
is compared against the window 9:15 (555 min) to 15:30 (930 min).
The source reads only `now.getHours()` and `now.getMinutes()`:
the day of week is not an input. -/
def checkMarketHours (hours minutes : Nat) : Bool :=
  let currentTime := hours * 60 + minutes
  let marketOpen := 9 * 60 + 15
  let marketClose := 15 * 60 + 30
  decide (currentTime ≥ marketOpen) && decide (currentTime ≤ marketClose)

/-- The default trading-day calendar of the settings page (src/unnamed/part_005,
`marketHours.trading_days = [0, 1, 2, 3, 4]`, indices into
`['Monday', ..., 'Sunday']`). -/
def defaultTradingDays : List Nat := [0, 1, 2, 3, 4]

/-- Spec-side definition, written from the spec's words for comparison with
`checkMarketHours`: the market is open iff the wall-clock time lies within
the trading-hours window AND the current day is a configured trading day. -/
def isMarketOpenSpec (dayIdx hours minutes : Nat) (tradingDays : List Nat) : Bool :=
  checkMarketHours hours minutes && tradingDays.contains dayIdx

/-! ## Polling intervals -/

/-- The three interval settings chosen by `adjustPollingStrategy`. -/
structure PollingIntervals where
  pollInterval : Nat
  statusEvery : Nat
  marketDataEvery : Nat
  deriving Repr, DecidableEq

/-- Embeds `adjustPollingStrategy` of live-trading-v2/+page.svelte:
market open → status every 2000 ms, market data every 10000 ms;
market closed → both every 60000 ms. -/
def adjustPollingStrategy (isOpen : Bool) : PollingIntervals :=
  if isOpen then
    { pollInterval := 2000, statusEvery := 2000, marketDataEvery := 10000 }
  else
    { pollInterval := 60000, statusEvery := 60000, marketDataEvery := 60000 }

/-- Embeds the market-status branch of `updateMarketData` in
live-trading-v2/+page.svelte (lines 214-226): when the freshly fetched
`is_open` differs from the previous one, `adjustPollingStrategy` is re-run;
otherwise the current intervals stay in force. -/
def updateMarketStatusIntervals (oldOpen newOpen : Bool) (cur : PollingIntervals) :
    PollingIntervals :=
  if oldOpen ≠ newOpen then adjustPollingStrategy newOpen else cur

/-- Embeds line 76 of timeframe.js:
`const updateFrequency = isMarketHours ? 1000 : 1000`. -/
def timeframeUpdateFrequency (isMarketHours : Bool) : Nat :=
  if isMarketHours then 1000 else 1000

/-! ## WebSocket store reconnect behaviour (src/unnamed/part_000) -/

/-- The part of the websocket store state touched by the `onclose` handler:
the `connected` flag, the pending reconnect timer with its delay in
milliseconds, and the rolling alert log (no code path of the store ever
appends to it). -/
structure WsState where
  connected : Bool
  reconnectDelay : Option Nat
  alerts : List String
  deriving Repr, DecidableEq

/-- Embeds `ws.onclose` of the websocket store (src/unnamed/part_000,
lines 69-82): sets `connected := false` and, when no reconnect timer is
pending, schedules one with the fixed literal delay `5e3`; an already
pending timer is kept as it is. No alert is touched. -/
def wsOnClose (s : WsState) : WsState :=
  { connected := false
    reconnectDelay :=
      match s.reconnectDelay with
      | none => some 5000
      | some d => some d
    alerts := s.alerts }

/-- Embeds `ws.onclose` of `initWebSocket` in live-trading-v2/+page.svelte
(lines 1043-1052): while the market is open, reconnection is scheduled via
`setTimeout(initWebSocket, 5000)`; otherwise no reconnect is scheduled. -/
def ltReconnectDelay (marketOpen : Bool) : Option Nat :=
  if marketOpen then some 5000 else none

/-! ## Alert log bound -/

/-- Embeds `loadAlerts` of both live-trading-v2 and paper-trading pages:
`alerts = (data.alerts || []).slice(0, 100)` — the collaborator's reply
(possibly absent) is truncated to its first 100 entries. -/
def loadAlertsRetained (fetched : Option (List α)) : List α :=
  (fetched.getD []).take 100

/-! ## Tick price extraction: the two consumers of market_data -/

/-- Embeds the `market_data` handler of the shared websocket store
(src/unnamed/part_000, line 45 and `getLatestPrice` line 148):
`const price = tick.last_price / 100`. -/
def storeTickPrice (lastPrice : ℚ) : ℚ := lastPrice / 100

/-- Embeds the `market_data` case of `handleWebSocketMessage` in
live-trading-v2/+page.svelte (line 1076): `const ltpValue = tick.last_price`
— the value is applied unchanged. -/
def handlerTickPrice (lastPrice : ℚ) : ℚ := lastPrice

/-! ## Paper-trading performance computation (loadTrades) -/

/-- One fetched paper trade, with the fields `loadTrades` reads.
`pnl`/`unrealizedPnl` are optional to model `t.pnl || 0`. -/
structure PaperTrade where
  status : String
  optionType : String
  pnl : Option ℚ
  unrealizedPnl : Option ℚ
  deriving Repr, DecidableEq

/-- Models `t.pnl || 0` of the source. -/
def PaperTrade.pnlVal (t : PaperTrade) : ℚ := t.pnl.getD 0

/-- Models `t.unrealized_pnl || 0` of the source. -/
def PaperTrade.unrealizedVal (t : PaperTrade) : ℚ := t.unrealizedPnl.getD 0

/-- The `performance` record filled in by `loadTrades`. -/
structure PaperPerformance where
  totalTrades : Nat
  callTrades : Nat
  putTrades : Nat
  realizedPnl : ℚ
  unrealizedPnl : ℚ
  totalPnl : ℚ
  deriving Repr, DecidableEq

/-- Embeds `loadTrades` of paper-trading/+page.svelte (lines 131-158):
`activeTrades = trades.filter(t => t.status === 'open')`,
`closedTrades = trades.filter(t => t.status === 'closed').slice(0, 50)`,
then the metrics are computed over those two lists. -/
def loadTradesPerf (trades : List PaperTrade) : PaperPerformance :=
  let activeTrades := trades.filter (fun t => t.status = "open")
  let closedTrades := (trades.filter (fun t => t.status = "closed")).take 50
  let realized := (closedTrades.map PaperTrade.pnlVal).sum
  let unrealized := (activeTrades.map PaperTrade.unrealizedVal).sum
  { totalTrades := closedTrades.length
    callTrades := (closedTrades.filter (fun t => t.optionType = "CE")).length
    putTrades := (closedTrades.filter (fun t => t.optionType = "PE")).length
    realizedPnl := realized
    unrealizedPnl := unrealized
    totalPnl := realized + unrealized }

/-! ## Engine state machine (modelled from the spec)

The engine core itself (the FastAPI backend behind `/api/live-trading-v2/...`
and `/api/paper-trading/...`) is not part of the repository snapshot; only
its frontend callers are. The operations below are modelled from the
specification, §4.1 and §7. -/

/-- Session status of the spec's `EngineSession`. -/
inductive Status where
  | Stopped
  | Running
  | Paused
  deriving Repr, DecidableEq

/-- Option side, CE (call) / PE (put). -/
inductive Side where
  | Call
  | Put
  deriving Repr, DecidableEq

/-- Status of a local `TradeIntent`. -/
inductive IntentStatus where
  | PendingSubmit
  | Open
  | Closed
  deriving Repr, DecidableEq

/-- The spec's `TradeIntent` data model (§3), with the fields the claims
talk about. -/
structure TradeIntent where
  id : Nat
  instrumentId : Nat
  side : Side
  entryPrice : ℚ
  targetPrice : ℚ
  stopLossPrice : ℚ
  quantity : Nat
  status : IntentStatus
  deriving Repr, DecidableEq

/-- Cause recorded when a transition is forced on the session. -/
inductive PauseCause where
  | AuthExpired
  | Manual
  deriving Repr, DecidableEq

/-- The spec's `EngineSession` (§3), restricted to the fields the claims
talk about. -/
structure EngineSession where
  status : Status
  pauseCause : Option PauseCause
  positions : List TradeIntent
  suspendCallEntries : Bool
  suspendPutEntries : Bool
  deriving Repr, DecidableEq

/-- Commands of the engine state machine (spec §4.1), including the
Session-Monitor-forced `authExpired` transition. -/
inductive Cmd where
  | pause
  | resume
  | stop
  | setSuspension (side : Side) (flag : Bool)
  | authExpired
  deriving Repr, DecidableEq

/-- Modelled from the spec: the engine state machine's transition function
(§4.1); the backend implementing it is missing from the snapshot.
`pause` freezes only entries; `resume` requires `Paused`; `stop` always
reaches `Stopped`; `setSuspension` toggles the flag of one side and nothing
else; on an authentication-expired signal the machine forces
`Running → Paused` and records the cause, leaving positions untouched. -/
def step (c : Cmd) (s : EngineSession) : EngineSession :=
  match c with
  | .pause =>
      if s.status = .Running then
        { s with status := .Paused, pauseCause := some .Manual }
      else s
  | .resume =>
      if s.status = .Paused then
        { s with status := .Running, pauseCause := none }
      else s
  | .stop =>
      { s with status := .Stopped }
  | .setSuspension side flag =>
      match side with
      | .Call => { s with suspendCallEntries := flag }
      | .Put => { s with suspendPutEntries := flag }
  | .authExpired =>
      if s.status = .Running then
        { s with status := .Paused, pauseCause := some .AuthExpired }
      else s

/-- Whether entries of a side are currently suspended on the session. -/
def suspended (side : Side) (s : EngineSession) : Bool :=
  match side with
  | .Call => s.suspendCallEntries
  | .Put => s.suspendPutEntries

/-- Whether some open `TradeIntent` already exists for the instrument. -/
def hasOpenPosition (s : EngineSession) (instrumentId : Nat) : Bool :=
  s.positions.any (fun t => t.instrumentId = instrumentId && t.status = .Open)

/-- Trend direction of the spec's `TrendState`. -/
inductive Direction where
  | Up
  | Down
  | Unknown
  deriving Repr, DecidableEq

/-- Entry triggers of the spec's evaluator (§4.4). -/
inductive Trigger where
  | shortMA
  | longMA
  | lowerBand
  deriving Repr, DecidableEq

/-- The direction a trend must have for entries of a side (§4.4). -/
def expectedDirectionFor (side : Side) : Direction :=
  match side with
  | .Call => .Up
  | .Put => .Down

/-- Modelled from the spec: the evaluator's fire condition (§4.4) —
`fires(trigger, trend, side) = trend.direction == expectedDirectionFor(side)
AND price within trigger.percentageBelow of the relevant MA/band AND NOT
suspended(side) AND NOT alreadyHasOpenPosition(instrument)`; the backend
evaluator is missing from the snapshot. The price proximity test is kept
abstract as a boolean input `priceNear`. -/
def fires (_trig : Trigger) (dir : Direction) (side : Side) (priceNear : Bool)
    (s : EngineSession) (instrumentId : Nat) : Bool :=
  decide (dir = expectedDirectionFor side) && priceNear
    && !(suspended side s) && !(hasOpenPosition s instrumentId)

/-- Modelled from the spec: `stop()` (§4.1, §7) — squares off every open
`TradeIntent` best-effort, where `squareOff` reports whether each attempt
succeeds; failures are collected per instrument; the session transitions
to `Stopped` regardless of the outcomes. The backend implementing it is
missing from the snapshot. -/
def stopWithSquareOff (s : EngineSession) (squareOff : TradeIntent → Bool) :
    EngineSession × List Nat :=
  let results := s.positions.map (fun t =>
    if t.status = .Open then
      if squareOff t then ({ t with status := .Closed }, none)
      else (t, some t.instrumentId)
    else (t, none))
  let failures := results.filterMap Prod.snd
  ({ s with status := .Stopped, positions := results.map Prod.fst }, failures)

/-- Mode of a start request. -/
inductive Mode where
  | Live
  | Historical
  deriving Repr, DecidableEq

/-- Errors a start request can be rejected with (spec §4.1 and §8). -/
inductive StartError where
  | NoConfig
  | AlreadyRunning
  | HistoricalRequiresMarketClosed
  deriving Repr, DecidableEq

/-- Modelled from the spec: `start(configId, contractExpiry?)` (§4.1, §8) —
rejects when no configuration exists, when another session is already
`Running`/`Paused`, and when Historical mode is requested while the market
is open (`Error(HistoricalRequiresMarketClosed)`); otherwise a fresh
`Running` session is created. The backend endpoint is missing from the
snapshot. -/
def startEngineCore (hasConfig : Bool) (existing : Option Status) (mode : Mode)
    (marketOpen : Bool) : Except StartError EngineSession :=
  if !hasConfig then .error .NoConfig
  else if existing = some .Running ∨ existing = some .Paused then
    .error .AlreadyRunning
  else if mode = .Historical ∧ marketOpen = true then
    .error .HistoricalRequiresMarketClosed
  else
    .ok { status := .Running, pauseCause := none, positions := []
          suspendCallEntries := false, suspendPutEntries := false }

/-- Embeds `loadMarketStatus` of paper-trading/+page.svelte (lines 116-130):
when the fetched market status reports the market open, the
`enableHistoricalMode` checkbox state is forced to `false`. -/
def loadMarketStatusHistFlag (isOpen : Bool) (enableHistoricalMode : Bool) : Bool :=
  if isOpen then false else enableHistoricalMode

/-! ## Shared concrete inputs for witnesses -/

/-- A sample open Call position. -/
def sampleIntent : TradeIntent :=
  { id := 1, instrumentId := 7, side := .Call, entryPrice := 100
    targetPrice := 105, stopLossPrice := 95, quantity := 50, status := .Open }

/-- A sample running session holding one open Call position. -/
def sampleSession : EngineSession :=
  { status := .Running, pauseCause := none, positions := [sampleIntent]
    suspendCallEntries := false, suspendPutEntries := false }

/-! ## Claims -/

/-- C1: whenever the engine session is Running and an authentication-expired
signal arrives, the status unconditionally becomes Paused (never remains
Running), the cause is recorded, open positions are left untouched, and a
Paused session returns to Running only via an explicit resume command. -/
theorem auth_expired_forces_pause (s : EngineSession) (h : s.status = .Running) :
    (step .authExpired s).status = .Paused ∧
    (step .authExpired s).status ≠ .Running ∧
    (step .authExpired s).pauseCause = some .AuthExpired ∧
    (step .authExpired s).positions = s.positions ∧
    (∀ (c : Cmd) (t : EngineSession), t.status = .Paused →
      (step c t).status = .Running → c = .resume) := by
  refine ⟨by simp [step, h], by simp [step, h], by simp [step, h],
    by simp [step, h], ?_⟩
  intro c t ht hc
  cases c with
  | pause => simp [step, ht] at hc
  | resume => rfl
  | stop => simp [step] at hc
  | setSuspension side flag => cases side <;> simp [step, ht] at hc
  | authExpired => simp [step, ht] at hc

/-- Witness for C1 at a concrete running session. -/
theorem auth_expired_forces_pause_witness :
    (step .authExpired sampleSession).status = .Paused ∧
    (step .authExpired sampleSession).pauseCause = some .AuthExpired ∧
    (step .authExpired sampleSession).positions = sampleSession.positions := by
  have h := auth_expired_forces_pause sampleSession rfl
  exact ⟨h.1, h.2.2.1, h.2.2.2.1⟩

/-- C2 counterexample: on day index 6 (Sunday, not in the configured
trading days) at 10:00, `checkMarketHours` still reports the market open,
while the spec-side determination (window AND trading day) reports it
closed — the determination does not consult the calendar at all. -/
theorem market_open_ignores_trading_days :
    checkMarketHours 10 0 = true ∧
    defaultTradingDays.contains 6 = false ∧
    isMarketOpenSpec 6 10 0 defaultTradingDays = false := by
  decide

/-- C2 (amended): the market-open determination reports open iff the
current minute-of-day lies within 9:15 (555) to 15:30 (930) inclusive,
regardless of the day — the trading-day calendar is not an input. -/
theorem market_open_iff_in_window (hours minutes : Nat) :
    checkMarketHours hours minutes = true ↔
      555 ≤ hours * 60 + minutes ∧ hours * 60 + minutes ≤ 930 := by
  simp [checkMarketHours, ge_iff_le, Bool.and_eq_true, decide_eq_true_iff]

/-- C3 counterexample: the timeframe store selects the same 1000 ms update
frequency whether the market is open or closed, so its closed-market
interval is not strictly longer than its open-market interval. -/
theorem timeframe_interval_not_longer_when_closed :
    timeframeUpdateFrequency false = 1000 ∧
    timeframeUpdateFrequency true = 1000 ∧
    ¬ timeframeUpdateFrequency false > timeframeUpdateFrequency true := by
  decide

/-- C3 (amended): in the live-trading-v2 page the closed-market polling
intervals (60 s) are strictly longer than the open-market intervals
(2 s status, 10 s market data), and the intervals are re-chosen by
`adjustPollingStrategy` on every flip of the market-open signal; the
timeframe store however uses the same 1000 ms frequency in both regimes. -/
theorem polling_intervals_longer_when_closed :
    (adjustPollingStrategy false).statusEvery > (adjustPollingStrategy true).statusEvery ∧
    (adjustPollingStrategy false).marketDataEvery >
      (adjustPollingStrategy true).marketDataEvery ∧
    (∀ (oldOpen newOpen : Bool) (cur : PollingIntervals), oldOpen ≠ newOpen →
      updateMarketStatusIntervals oldOpen newOpen cur = adjustPollingStrategy newOpen) ∧
    timeframeUpdateFrequency true = timeframeUpdateFrequency false := by
  refine ⟨by decide, by decide, ?_, rfl⟩
  intro oldOpen newOpen cur h
  simp [updateMarketStatusIntervals, h]

/-- Witness for C3 at a concrete flip from open to closed. -/
theorem polling_intervals_longer_when_closed_witness :
    updateMarketStatusIntervals true false (adjustPollingStrategy true) =
      adjustPollingStrategy false :=
  polling_intervals_longer_when_closed.2.2.1 true false (adjustPollingStrategy true)
    (by decide)

/-- C4: a start request in Historical mode while the market is open is
always rejected — no session value is ever produced, hence none enters
Running — and the paper-trading page's market-status load forces the
historical-mode flag off whenever the market is open. -/
theorem historical_start_rejected_while_open :
    (∀ (hasConfig : Bool) (existing : Option Status),
      ∃ e : StartError, startEngineCore hasConfig existing .Historical true = .error e) ∧
    (∀ enable : Bool, loadMarketStatusHistFlag true enable = false) := by
  constructor
  · intro hasConfig existing
    cases hasConfig <;> rcases existing with _ | st
    · exact ⟨.NoConfig, rfl⟩
    · exact ⟨.NoConfig, rfl⟩
    · exact ⟨.HistoricalRequiresMarketClosed, rfl⟩
    · cases st
      · exact ⟨.HistoricalRequiresMarketClosed, rfl⟩
      · exact ⟨.AlreadyRunning, rfl⟩
      · exact ⟨.AlreadyRunning, rfl⟩
  · intro enable
    rfl

/-- C5: stop squares off open intents best-effort; whatever the square-off
outcomes, the session always transitions to Stopped, and the failures are
reported per instrument: exactly the instrument ids of the open positions
whose square-off attempt failed. -/
theorem stop_completes_despite_squareoff_failures (s : EngineSession)
    (squareOff : TradeIntent → Bool) :
    (stopWithSquareOff s squareOff).1.status = .Stopped ∧
    (stopWithSquareOff s squareOff).2 =
      (s.positions.filter (fun t => t.status = .Open && !squareOff t)).map
        (fun t => t.instrumentId) := by
  constructor
  · rfl
  · show ((s.positions.map _).filterMap Prod.snd) = _
    induction s.positions with
    | nil => rfl
    | cons t rest ih =>
      by_cases hopen : t.status = .Open
      · by_cases hsq : squareOff t = true
        · simp [hopen, hsq, List.filterMap_cons, ih]
        · simp only [Bool.not_eq_true] at hsq
          simp [hopen, hsq, List.filterMap_cons, ih]
      · simp [hopen, List.filterMap_cons, ih]

/-- C6: setting a suspension flag leaves the positions list (hence every
field of every open position), the status and the pause cause unchanged;
once the flag is set, the evaluator's fire condition for that side is false
for every trigger, trend and instrument, so only new entries are blocked. -/
theorem suspension_preserves_positions (s : EngineSession) (side : Side)
    (flag : Bool) :
    (step (.setSuspension side flag) s).positions = s.positions ∧
    (step (.setSuspension side flag) s).status = s.status ∧
    (step (.setSuspension side flag) s).pauseCause = s.pauseCause ∧
    (∀ (trig : Trigger) (dir : Direction) (priceNear : Bool) (instrumentId : Nat),
      fires trig dir side priceNear (step (.setSuspension side true) s)
        instrumentId = false) := by
  cases side <;>
    exact ⟨rfl, rfl, rfl, fun trig dir priceNear instrumentId => by
      simp [fires, suspended, step]⟩

/-- Witness for C6: suspending Call entries on the sample session blocks a
Call fire and leaves the open position untouched. -/
theorem suspension_preserves_positions_witness :
    (step (.setSuspension .Call true) sampleSession).positions =
      sampleSession.positions ∧
    fires .shortMA .Up .Call true (step (.setSuspension .Call true) sampleSession)
      7 = false := by
  have h := suspension_preserves_positions sampleSession .Call true
  exact ⟨h.1, h.2.2.2 .shortMA .Up true 7⟩

/-- The disconnect handler never touches the alert log. -/
theorem wsOnClose_alerts (t : WsState) : (wsOnClose t).alerts = t.alerts := rfl

/-- The disconnect handler keeps an already scheduled 5000 ms reconnect. -/
theorem wsOnClose_delay (t : WsState) (h : t.reconnectDelay = some 5000) :
    (wsOnClose t).reconnectDelay = some 5000 := by
  simp [wsOnClose, h]

/-- C7 counterexample: after ten consecutive disconnects of the websocket
store, the reconnect delay is still the fixed 5000 ms and the alert log is
still empty — no alert is ever raised after N consecutive failures. -/
theorem no_alert_after_consecutive_failures :
    ((wsOnClose^[10]) ⟨true, none, []⟩).alerts = [] ∧
    ((wsOnClose^[10]) ⟨true, none, []⟩).reconnectDelay = some 5000 := by
  exact ⟨rfl, rfl⟩

/-- C7 (amended): after every disconnect a reconnection attempt is
scheduled at the fixed constant 5000 ms delay, the delay never changes
across consecutive failures, the live page likewise reconnects after
5000 ms while the market is open, and the alert log is never touched by
the disconnect handler. -/
theorem reconnect_fixed_delay (n : Nat) (s : WsState)
    (h : s.reconnectDelay = none) :
    ((wsOnClose^[n + 1]) s).reconnectDelay = some 5000 ∧
    ((wsOnClose^[n]) s).alerts = s.alerts ∧
    ltReconnectDelay true = some 5000 := by
  induction n with
  | zero => exact ⟨by simp [wsOnClose, h], rfl, rfl⟩
  | succ k ih =>
    refine ⟨?_, ?_, rfl⟩
    · rw [Function.iterate_succ_apply']
      exact wsOnClose_delay _ ih.1
    · rw [Function.iterate_succ_apply']
      rw [wsOnClose_alerts]
      exact ih.2.1

/-- Witness for C7 at three consecutive disconnects from a fresh state. -/
theorem reconnect_fixed_delay_witness :
    ((wsOnClose^[3]) ⟨true, none, []⟩).reconnectDelay = some 5000 ∧
    ((wsOnClose^[2]) ⟨true, none, []⟩).alerts = [] := by
  have h := reconnect_fixed_delay 2 ⟨true, none, []⟩ rfl
  exact ⟨h.1, h.2.1⟩

/-- C8: after every alert load the retained list is the 100-entry prefix of
whatever the collaborator returned (empty when it returned nothing), so it
holds at most 100 entries and is an initial segment of the returned list. -/
theorem alerts_bounded (fetched : Option (List α)) :
    (loadAlertsRetained fetched).length ≤ 100 ∧
    loadAlertsRetained fetched = (fetched.getD []).take 100 ∧
    loadAlertsRetained fetched <+: fetched.getD [] := by
  exact ⟨List.length_take_le 100 (fetched.getD []), rfl, List.take_prefix 100 _⟩

/-- C9: the two consumers of the same market_data tick disagree — for a
tick with last_price = 100 the shared websocket store records 100/100 = 1
while the live-trading-v2 handler applies 100 unchanged. -/
theorem tick_price_consumers_disagree :
    storeTickPrice 100 = 1 ∧ handlerTickPrice 100 = 100 ∧
    storeTickPrice 100 ≠ handlerTickPrice 100 := by
  refine ⟨by norm_num [storeTickPrice], rfl, by norm_num [storeTickPrice, handlerTickPrice]⟩

/-- C10: the paper-trading performance metrics are computed over the closed
trades truncated to the first 50 (so at most 50 count), realized P&L sums
their pnl fields, the CE/PE counters count the same truncated set, total
P&L is realized plus unrealized over all open trades, and closed trades
beyond the first 50 are irrelevant to the whole computation. -/
theorem paper_performance_truncates_closed (trades : List PaperTrade) :
    (loadTradesPerf trades).realizedPnl =
      (((trades.filter (fun t => t.status = "closed")).take 50).map
        PaperTrade.pnlVal).sum ∧
    (loadTradesPerf trades).totalTrades =
      ((trades.filter (fun t => t.status = "closed")).take 50).length ∧
    (loadTradesPerf trades).totalTrades ≤ 50 ∧
    (loadTradesPerf trades).callTrades =
      (((trades.filter (fun t => t.status = "closed")).take 50).filter
        (fun t => t.optionType = "CE")).length ∧
    (loadTradesPerf trades).putTrades =
      (((trades.filter (fun t => t.status = "closed")).take 50).filter
        (fun t => t.optionType = "PE")).length ∧
    (loadTradesPerf trades).totalPnl =
      (loadTradesPerf trades).realizedPnl +
        ((trades.filter (fun t => t.status = "open")).map
          PaperTrade.unrealizedVal).sum ∧
    loadTradesPerf trades =
      loadTradesPerf (trades.filter (fun t => t.status = "open") ++
        (trades.filter (fun t => t.status = "closed")).take 50) := by
  refine ⟨rfl, rfl, List.length_take_le 50 _, rfl, rfl, rfl, ?_⟩
  have hopen :
      (trades.filter (fun t => t.status = "open") ++
        (trades.filter (fun t => t.status = "closed")).take 50).filter
        (fun t => t.status = "open") =
      trades.filter (fun t => t.status = "open") := by
    rw [List.filter_append]
    have h1 : (trades.filter (fun t => t.status = "open")).filter
        (fun t => t.status = "open") = trades.filter (fun t => t.status = "open") := by
      rw [List.filter_eq_self]
      intro t ht
      exact (List.mem_filter.mp ht).2
    have h2 : ((trades.filter (fun t => t.status = "closed")).take 50).filter
        (fun t => t.status = "open") = [] := by
      rw [List.filter_eq_nil_iff]
      intro t ht
      have := List.mem_filter.mp (List.mem_of_mem_take ht)
      have hc : t.status = "closed" := by simpa using this.2
      simp [hc]
    rw [h1, h2, List.append_nil]
  have hclosed :
      (trades.filter (fun t => t.status = "open") ++
        (trades.filter (fun t => t.status = "closed")).take 50).filter
        (fun t => t.status = "closed") =
      (trades.filter (fun t => t.status = "closed")).take 50 := by
    rw [List.filter_append]
    have h1 : (trades.filter (fun t => t.status = "open")).filter
        (fun t => t.status = "closed") = [] := by
      rw [List.filter_eq_nil_iff]
      intro t ht
      have := List.mem_filter.mp ht
      have hc : t.status = "open" := by simpa using this.2
      simp [hc]
    have h2 : ((trades.filter (fun t => t.status = "closed")).take 50).filter
        (fun t => t.status = "closed") =
        (trades.filter (fun t => t.status = "closed")).take 50 := by
      rw [List.filter_eq_self]
      intro t ht
      have := List.mem_filter.mp (List.mem_of_mem_take ht)
      simpa using this.2
    rw [h1, h2, List.nil_append]
  show loadTradesPerf trades = _
  simp only [loadTradesPerf, hopen, hclosed, List.take_take, min_self]

end OTrade
